import Mathlib

/-!
# Metlink Explorer — verification of the stop-pattern / timeline pipeline

A shallow embedding of `custom_components/metlink_explorer` (api.py,
sensor.py, config_flow.py).  Network fetches are passed in explicitly as
`Except String α` outcomes (an `.error` models an `aiohttp` transport
failure surfaced as `MetlinkApiError`); the wall clock is passed as a
seconds-of-day value.  JSON scalar values are modelled by `JVal`;
Python `dict.get` on a key that the producing code always inserts is
modelled by `pyDictGet` applied to a `some`-wrapped stored value, so that
the present-but-null behaviour of `dict.get` is visible in the model.
-/

namespace Metlink

/-- A scalar JSON value as it appears in id fields (`route_id`,
`stop_id`, ...): the API may serve them as strings or numbers, and a
missing key read with `dict.get(k)` yields Python `None`. -/
inductive JVal where
  | jstr (s : String)
  | jnum (n : Int)
  | jnull
deriving DecidableEq, Repr

/-- Python `str()` applied to a scalar `JVal` (api.py normalises ids with
`str(...)` before comparing, e.g. api.py:78, 144, 150). -/
def pyStr : JVal → String
  | .jstr s => s
  | .jnum n => toString n
  | .jnull => "None"

/-- Code-point lexicographic comparison of character lists; this is the
order Python uses for `str < str`. -/
def charLtList : List Char → List Char → Bool
  | [], [] => false
  | [], _ :: _ => true
  | _ :: _, [] => false
  | a :: as, b :: bs =>
    if a.toNat < b.toNat then true
    else if b.toNat < a.toNat then false
    else charLtList as bs

/-- Python string `<`. -/
def pyStrLt (a b : String) : Bool := charLtList a.toList b.toList

/-- ASCII lower-casing of one character (the route names and stop names
in this data set are ASCII, so Python `str.lower()` agrees with this). -/
def lowerChar (c : Char) : Char :=
  if 65 ≤ c.toNat ∧ c.toNat ≤ 90 then Char.ofNat (c.toNat + 32) else c

/-- Python `str.lower()` (ASCII fragment). -/
def lowerStr (s : String) : String := String.mk (s.toList.map lowerChar)

/-- Value of a nonempty ASCII digit run, most significant digit first. -/
def digitsToNat (cs : List Char) : Nat :=
  cs.foldl (fun n c => 10 * n + (c.toNat - 48)) 0

/-- Python `int(s)` on a route short name: an optional sign followed by a
nonempty digit run parses, anything else raises `ValueError`
(config_flow.py:300).  Underscore separators and surrounding whitespace,
which Python also accepts, do not occur in route names and are not
modelled. -/
def pyInt (s : String) : Option Int :=
  match s.toList with
  | [] => none
  | '-' :: rest =>
    if rest ≠ [] ∧ rest.all Char.isDigit then some (-(digitsToNat rest : Int)) else none
  | '+' :: rest =>
    if rest ≠ [] ∧ rest.all Char.isDigit then some (digitsToNat rest : Int) else none
  | cs =>
    if cs.all Char.isDigit then some (digitsToNat cs : Int) else none

/-- `needle in hay` on character lists (Python substring containment). -/
def containsSub : List Char → List Char → Bool
  | hay, needle =>
    match hay with
    | [] => needle.isEmpty
    | _ :: t => needle.isPrefixOf hay || containsSub t needle

/-- Python `needle in hay` for strings. -/
def pyStrIn (needle hay : String) : Bool := containsSub hay.toList needle.toList

/-- One step of a stable insertion sort: `x` is placed before the first
element that is not strictly below it, so elements comparing equal keep
their original relative order — exactly the guarantee of Python
`sorted`/`list.sort`, which all call sites of this model rely on. -/
def insertLt (lt : α → α → Bool) (x : α) : List α → List α
  | [] => [x]
  | y :: ys => if lt y x then y :: insertLt lt x ys else x :: y :: ys

/-- Stable sort by a strict comparison; extensionally equal to Python
`sorted(l, key=k)` when `lt a b = (k a < k b)`, because a stable sort is
determined by the key order and the input order. -/
def sortLt (lt : α → α → Bool) : List α → List α
  | [] => []
  | x :: xs => insertLt lt x (sortLt lt xs)

/-- A row of the `/gtfs/trips` resource (fields read by api.py). -/
structure Trip where
  route_id : JVal
  direction_id : Option Int
  trip_id : String
deriving DecidableEq, Repr

/-- A row of the `/gtfs/stops` resource (fields read by api.py).
`stop_name` is `none` when the key is absent; latitude/longitude are
passed through untouched. -/
structure Stop where
  stop_id : JVal
  stop_name : Option String
  stop_lat : Option JVal
  stop_lon : Option JVal
deriving DecidableEq, Repr

/-- A row of `/gtfs/stop_times?trip_id=...`.  `stop_id` and
`stop_sequence` are indexed directly (api.py:150,154) so they are total;
the two time fields are read with `dict.get` and may be null or absent,
both of which Python `.get` collapses to `None`. -/
structure StopTime where
  stop_id : JVal
  stop_sequence : Int
  arrival_time : Option String
  departure_time : Option String
deriving DecidableEq, Repr

/-- The dict built at api.py:152-157: a copy of the stop row updated with
the sequence and times of the stop_time row.  All seven keys are present
in every such dict. -/
structure PatternStop where
  stop_id : JVal
  stop_name : Option String
  stop_lat : Option JVal
  stop_lon : Option JVal
  stop_sequence : Int
  arrival_time : Option String
  departure_time : Option String
deriving DecidableEq, Repr

/-- An entry of the `/stop-predictions` response used by
`get_route_timeline_for_card` (api.py:356-367).  `departure_time` is
`none` when the key is absent (the `"99:99:99"` sort default applies). -/
structure Prediction where
  route_id : JVal
  route_short_name : Option String
  direction_id : Option Int
  departure_time : Option String
deriving DecidableEq, Repr

/-- A row of `/gtfs/routes` (fields read by config_flow.py and api.py). -/
structure Route where
  route_id : JVal
  route_short_name : Option String
  route_long_name : Option String
  route_type : Option Int
deriving DecidableEq, Repr

/-- `{str(stop["stop_id"]): stop for stop in all_stops}` followed by a
key lookup (api.py:144,151-152).  A Python dict comprehension keeps the
last row for a repeated key, which the `foldl` reproduces. -/
def stopsDictFind (stops : List Stop) (sid : String) : Option Stop :=
  stops.foldl (fun acc st => if pyStr st.stop_id = sid then some st else acc) none

/-- Comparison used by `sorted(stop_times, key=lambda x: x.get("stop_sequence", 0))`
(api.py:103); the key is total because every row carries the field. -/
def stopSeqLt (a b : StopTime) : Bool := decide (a.stop_sequence < b.stop_sequence)

/-- `get_stop_times_for_trip` (api.py:89-110): the fetched rows sorted by
`stop_sequence`.  The `isinstance(stop_times, list)` guard is vacuous in
the typed model; a transport failure is re-raised (api.py:108-110). -/
def get_stop_times_for_trip (o : Except String (List StopTime)) :
    Except String (List StopTime) :=
  o.map (sortLt stopSeqLt)

/-- Body of the loop at api.py:148-161: look the stop_time's stop id up
in the stops dict; on a hit, copy the stop row and update it with the
sequence and times; on a miss the row is skipped (only a warning is
logged). -/
def mkPatternStop (stops : List Stop) (st : StopTime) : Option PatternStop :=
  match stopsDictFind stops (pyStr st.stop_id) with
  | none => none
  | some stop =>
    some { stop_id := stop.stop_id
           stop_name := stop.stop_name
           stop_lat := stop.stop_lat
           stop_lon := stop.stop_lon
           stop_sequence := st.stop_sequence
           arrival_time := st.arrival_time
           departure_time := st.departure_time }

/-- `get_trips_for_route` (api.py:69-87): fetch all trips, keep those
with `str(trip.get("route_id")) == str(route_id)`; a transport failure is
re-raised. -/
def get_trips_for_route (trips : Except String (List Trip)) (route_id : String) :
    Except String (List Trip) :=
  trips.map (fun ts => ts.filter (fun t => pyStr t.route_id = route_id))

/-- The trips of the requested route and direction, in fetch order
(api.py:118-121); `trip.get("direction_id") == direction_id` is a raw
equality, so a missing `direction_id` never matches. -/
def directionTrips (trips : List Trip) (route_id : String) (direction_id : Int) :
    List Trip :=
  (trips.filter (fun t => pyStr t.route_id = route_id)).filter
    (fun t => t.direction_id = some direction_id)

/-- `get_route_stop_pattern` (api.py:112-167), the spec's `resolve`:
take the first trip of the requested route/direction as representative,
sort its stop_times by sequence, and join each against the stops dict,
silently dropping rows whose stop id has no stop.  Transport failures of
any of the three underlying fetches are re-raised (api.py:165-167). -/
def get_route_stop_pattern (trips : Except String (List Trip))
    (stop_times : String → Except String (List StopTime))
    (stops : Except String (List Stop))
    (route_id : String) (direction_id : Int) :
    Except String (List PatternStop) := do
  let ts ← get_trips_for_route trips route_id
  let dts := ts.filter (fun t => t.direction_id = some direction_id)
  match dts with
  | [] => return []
  | sample :: _ => do
    let st ← get_stop_times_for_trip (stop_times sample.trip_id)
    if st.isEmpty then
      return []
    else do
      let all_stops ← stops
      return st.filterMap (mkPatternStop all_stops)

/-- Python `d.get(key, default)` where the model records key presence:
`entry = some v` means the key is present with stored value `v` (which
may itself be Python `None`); `entry = none` means the key is absent.
Python returns the stored value — even `None` — whenever the key is
present; the default is consulted only for an absent key. -/
def pyDictGet (entry : Option (Option String)) (dflt : Option String) : Option String :=
  entry.getD dflt

/-- `stop_info.get("departure_time", stop_info.get("arrival_time"))`
(api.py:416 and 425).  Both keys are inserted unconditionally when the
pattern stop is built (api.py:153-157), hence the `some`-wrapping: the
arrival default could only be consulted for a dict missing the
`departure_time` key, which never happens for a pattern stop. -/
def scheduledTime (s : PatternStop) : Option String :=
  pyDictGet (some s.departure_time) (pyDictGet (some s.arrival_time) none)

/-- Split a character list at `':'` (the separators of `%H:%M:%S`). -/
def splitColons (cs : List Char) (acc : List Char) : List (List Char) :=
  match cs with
  | [] => [acc.reverse]
  | c :: rest =>
    if c = ':' then acc.reverse :: splitColons rest [] else splitColons rest (c :: acc)

/-- One `strptime` time field: one or two ASCII digits, value at most `hi`. -/
def hmsField (cs : List Char) (hi : Nat) : Option Nat :=
  if cs ≠ [] ∧ cs.length ≤ 2 ∧ cs.all Char.isDigit ∧ digitsToNat cs ≤ hi then
    some (digitsToNat cs)
  else none

/-- `datetime.strptime(f"{current_time.date()} {t}", "%Y-%m-%d %H:%M:%S")`
(api.py:384) restricted to the time-of-day half, as seconds since
midnight: the date half is rendered by the code itself and always parses,
and the time half must be three colon-separated 1-2 digit fields with
hours below 24 and minutes and seconds below 60 — anything else
(including GTFS times such as "24:10:00") raises and runs the
except-branch at api.py:409-412. -/
def parseHMS (t : String) : Option Nat :=
  match splitColons t.toList [] with
  | [h, m, s] =>
    match hmsField h 23, hmsField m 59, hmsField s 59 with
    | some hh, some mm, some ss => some (hh * 3600 + mm * 60 + ss)
    | _, _, _ => none
  | _ => none

/-- api.py:384-391: the departure's time of day is combined with today's
date; if that instant is before `now` it is rolled forward one day
(api.py:387-389); the ETA is the difference in whole seconds.  Both
arguments are seconds since midnight of the current day (`now` is below
86400 in reality); the model works at whole-second granularity. -/
def etaSeconds (dep now : Nat) : Int :=
  if dep < now then (dep : Int) + 86400 - now else (dep : Int) - now

/-- api.py:392-405: render `eta_seconds` for display.  Python `//` and
`%` are floor division and floor remainder, i.e. `Int.fdiv` and
`Int.fmod`. -/
def formatEta (eta : Int) : String :=
  let etaMinutes := Int.fdiv eta 60
  let etaRemaining := Int.fmod eta 60
  if eta ≤ 0 then "Due now"
  else if eta < 60 then toString eta ++ "s"
  else if etaMinutes < 60 then toString etaMinutes ++ "m " ++ toString etaRemaining ++ "s"
  else toString (Int.fdiv etaMinutes 60) ++ "h " ++ toString (Int.fmod etaMinutes 60) ++ "m"

/-- The `_is_hub_stop` keyword list (api.py:476-480). -/
def hubKeywords : List String :=
  ["station", "interchange", "terminal", "centre", "plaza",
   "wellington", "petone", "lower hutt", "upper hutt", "masterton",
   "johnsonville", "porirua", "paraparaumu", "waikanae"]

/-- `_is_hub_stop` (api.py:474-482): case-insensitive keyword containment. -/
def is_hub_stop (stop_name : String) : Bool :=
  hubKeywords.any (fun kw => pyStrIn kw (lowerStr stop_name))

/-- Sort key of api.py:366-367: `x.get("departure_time", "99:99:99")`
compared as strings. -/
def predTimeLt (a b : Prediction) : Bool :=
  pyStrLt (a.departure_time.getD "99:99:99") (b.departure_time.getD "99:99:99")

/-- The prediction list a timeline stop actually ends up with
(api.py:352-370).  The filter condition is
`(str(pred.get("route_id")) == str(route_id) or
  str(pred.get("route_short_name", "")).lower() == self._get_route_short_name(route_id).lower())
 and pred.get("direction_id") == direction_id`;
`_get_route_short_name` is an async method invoked without `await`, so
its `.lower()` raises `AttributeError` on the returned coroutine the
moment the `or` fails to short-circuit.  The comprehension therefore
completes only when every fetched entry matches on `route_id`; otherwise
the exception is caught at api.py:369 and the stop keeps the empty list
initialised at api.py:352.  On success the direction matches are sorted
by departure time and the first three are kept. -/
def effectivePredictions (route_id : String) (direction_id : Int)
    (fetched : List Prediction) : List Prediction :=
  if fetched.isEmpty then []
  else if fetched.all (fun p => pyStr p.route_id = route_id) then
    (sortLt predTimeLt (fetched.filter (fun p => p.direction_id = some direction_id))).take 3
  else []

/-- One entry of the card timeline (api.py:421-437). -/
structure TimelineStop where
  stop_id : String
  stop_name : String
  stop_sequence : Int
  scheduled_time : Option String
  next_departure : Option String
  eta_display : String
  eta_seconds : Int
  prediction_count : Nat
  has_real_time : Bool
  stop_lat : Option JVal
  stop_lon : Option JVal
  is_departure : Bool
  is_destination : Bool
  is_hub : Bool
  all_predictions : List Prediction
deriving DecidableEq, Repr

/-- api.py:372-419: compute `(eta_display, eta_seconds, next_departure)`
for one stop from its filtered predictions, with the scheduled-time
fallback.  A first prediction whose departure time is absent or empty is
falsy for `if departure_time:` and leaves `next_departure` unset, which
triggers the fallback; a departure that `strptime` rejects is displayed
raw with `eta_seconds` still 0 (api.py:409-412).  The fallback labels a
truthy stored scheduled time with a "Scheduled: " prefix and otherwise
changes nothing. -/
def etaCore (predictions : List Prediction) (stop : PatternStop) (now : Nat) :
    String × Int × Option String :=
  let base : String × Int × Option String :=
    match predictions with
    | [] => ("No predictions", 0, none)
    | next :: _ =>
      match next.departure_time with
      | none => ("No predictions", 0, none)
      | some dt =>
        if dt = "" then ("No predictions", 0, none)
        else
          match parseHMS dt with
          | some dep =>
            let e := etaSeconds dep now
            (formatEta e, e, some dt)
          | none => (dt, 0, some dt)
  match base with
  | (disp, e, some nd) => (disp, e, some nd)
  | (disp, e, none) =>
    match scheduledTime stop with
    | none => (disp, e, none)
    | some s => if s = "" then (disp, e, none) else ("Scheduled: " ++ s, e, some s)

/-- One iteration of the loop at api.py:348-438, producing the timeline
entry for `stop` from the raw `/stop-predictions` response for its stop
id. -/
def buildTimelineStop (route_id : String) (direction_id : Int)
    (patternLen : Nat) (now : Nat) (stop : PatternStop)
    (fetched : List Prediction) : TimelineStop :=
  let predictions := effectivePredictions route_id direction_id fetched
  let core := etaCore predictions stop now
  { stop_id := pyStr stop.stop_id
    stop_name := stop.stop_name.getD "Unknown Stop"
    stop_sequence := stop.stop_sequence
    scheduled_time := scheduledTime stop
    next_departure := core.2.2
    eta_display := core.1
    eta_seconds := core.2.1
    prediction_count := predictions.length
    has_real_time := decide (0 < predictions.length)
    stop_lat := stop.stop_lat
    stop_lon := stop.stop_lon
    is_departure := decide (stop.stop_sequence = 0)
    is_destination := decide (stop.stop_sequence = (patternLen : Int) - 1)
    is_hub := is_hub_stop (stop.stop_name.getD "")
    all_predictions := predictions }

/-- Comparison for the sort at api.py:441 (`key=lambda x: x["stop_sequence"]`). -/
def timelineSeqLt (a b : TimelineStop) : Bool := decide (a.stop_sequence < b.stop_sequence)

/-- The dict returned by `get_route_timeline_for_card` (api.py:447-458).
In the two failure branches (api.py:339 and 460-463) Python returns a
dict holding only `stops` and `error`; its consumers read the remaining
keys with `dict.get` defaults, which is what the extra fields hold in
those branches. -/
structure Timeline where
  stops : List TimelineStop
  route_id : String
  direction_id : Int
  total_stops : Nat
  departure_stop : Option TimelineStop
  destination_stop : Option TimelineStop
  hub_stops : List TimelineStop
  real_time_stops : Nat
  error : Option String
deriving DecidableEq, Repr

/-- The parsed JSON body of a `/stop-predictions` response. -/
inductive PredBody where
  | plist (items : List Prediction)
  | pother
deriving DecidableEq, Repr

/-- The raw outcome of the HTTP request inside `get_stop_predictions`:
`.error` is an exception raised while requesting; `.ok (status, body)` is
a completed response whose body parse may itself raise. -/
abbrev PredFetch := Except String (Nat × Except String PredBody)

/-- `get_stop_predictions` (api.py:193-213): the parsed body if the
status is 200 and the body is a list; `[]` on a non-200 status, a
non-list body, or any exception — this fetcher alone swallows its errors
instead of re-raising `MetlinkApiError`. -/
def get_stop_predictions (o : PredFetch) : List Prediction :=
  match o with
  | .error _ => []
  | .ok (status, body) =>
    if status = 200 then
      match body with
      | .error _ => []
      | .ok (.plist items) => items
      | .ok .pother => []
    else []

/-- The fetch outcomes one refresh cycle can observe, passed in
explicitly: each `.error` models an `aiohttp`/timeout failure that
`_request` (api.py:30-46) surfaces as `MetlinkApiError`. -/
structure FetchEnv where
  routes : Except String (List Route)
  trips : Except String (List Trip)
  stops : Except String (List Stop)
  stop_times : String → Except String (List StopTime)
  vehicle_positions : Except String (List JVal)
  trip_updates : Except String (List JVal)
  stop_predictions : String → PredFetch

/-- `get_routes` (api.py:56-62): re-raises transport failures. -/
def get_routes (env : FetchEnv) : Except String (List Route) := env.routes

/-- `get_routes_by_type` (api.py:64-67), the spec's `list_routes`. -/
def get_routes_by_type (env : FetchEnv) (route_type : Int) :
    Except String (List Route) :=
  (get_routes env).map (fun rs => rs.filter (fun r => r.route_type = some route_type))

/-- `get_vehicle_positions` (api.py:177-183): re-raises transport failures. -/
def get_vehicle_positions (env : FetchEnv) : Except String (List JVal) :=
  env.vehicle_positions

/-- `get_trip_updates` (api.py:185-191): re-raises transport failures. -/
def get_trip_updates (env : FetchEnv) : Except String (List JVal) :=
  env.trip_updates

/-- `get_route_timeline_for_card` (api.py:330-463), the spec's `build`.
The static pattern is resolved first; each pattern stop then gets the
filtered `/stop-predictions` list and a timeline entry; the entries are
sorted by stop sequence.  The `except Exception` at api.py:460-463
catches every failure — including `MetlinkApiError` raised by the static
fetches inside `get_route_stop_pattern` — and turns it into
`{"stops": [], "error": str(exc)}`, so this function never raises. -/
def get_route_timeline_for_card (env : FetchEnv) (route_id : String)
    (direction_id : Int) (now : Nat) : Timeline :=
  match get_route_stop_pattern env.trips env.stop_times env.stops route_id direction_id with
  | .error e =>
    { stops := [], route_id := "", direction_id := 0, total_stops := 0,
      departure_stop := none, destination_stop := none, hub_stops := [],
      real_time_stops := 0, error := some e }
  | .ok [] =>
    { stops := [], route_id := "", direction_id := 0, total_stops := 0,
      departure_stop := none, destination_stop := none, hub_stops := [],
      real_time_stops := 0, error := some "No stop pattern found" }
  | .ok pattern =>
    let timeline_stops := pattern.map (fun stop =>
      buildTimelineStop route_id direction_id pattern.length now stop
        (get_stop_predictions (env.stop_predictions (pyStr stop.stop_id))))
    let sorted := sortLt timelineSeqLt timeline_stops
    { stops := sorted
      route_id := route_id
      direction_id := direction_id
      total_stops := sorted.length
      departure_stop := sorted.head?
      destination_stop := sorted.getLast?
      hub_stops := sorted.filter (fun s => s.is_hub)
      real_time_stops := sorted.countP (fun s => s.has_real_time)
      error := none }

/-- The dict returned by `get_route_stop_predictions` (api.py:319-323).
The per-stop prediction lists are initialised empty (api.py:250-256); the
merge loop over trip updates (api.py:258-316) only appends parsed
predictions to those lists and swallows its own parse errors, so it
cannot raise `MetlinkApiError`; no theorem below inspects its output, and
the initialised structure is kept as is. -/
structure RouteStopData where
  stops : List (String × PatternStop)
  destination : Option PatternStop
  stop_count : Nat
deriving DecidableEq, Repr

/-- `get_route_stop_predictions` (api.py:215-328), the spec's `match`:
resolve the pattern, then fetch trip updates and the route's trips;
transport failures of any of these fetches re-raise past this function
(api.py:325-328). -/
def get_route_stop_predictions (env : FetchEnv) (route_id : String)
    (direction_id : Int) : Except String RouteStopData := do
  let pattern ← get_route_stop_pattern env.trips env.stop_times env.stops route_id direction_id
  if pattern.isEmpty then
    return { stops := [], destination := none, stop_count := 0 }
  else do
    let _tu ← get_trip_updates env
    let _ts ← get_trips_for_route env.trips route_id
    return { stops := pattern.map (fun s => (pyStr s.stop_id, s))
             destination := pattern.getLast?
             stop_count := pattern.length }

/-- The dict `_async_update_data` returns (sensor.py:110-116). -/
structure CoordinatorData where
  trips : List Trip
  vehicle_positions : List JVal
  trip_updates : List JVal
  route_stops : RouteStopData
  route_timeline : Timeline
deriving DecidableEq, Repr

/-- `MetlinkDataUpdateCoordinator._async_update_data` (sensor.py:57-119).
The three fetches at sensor.py:63-70 run inside the outer `try` only, so
a `MetlinkApiError` from any of them reaches sensor.py:117-119 and is
re-raised as `UpdateFailed` (modelled as `.error` carrying the
`UpdateFailed` message); the timeline and stop-prediction calls each sit
in their own `try/except Exception` (sensor.py:74-86, 90-108) and fall
back to empty defaults instead of failing the refresh. -/
def async_update_data (env : FetchEnv) (route_id : String)
    (direction_id : Int) (now : Nat) : Except String CoordinatorData :=
  (do
    let trips ← get_trips_for_route env.trips route_id
    let vehicle_positions ← get_vehicle_positions env
    let trip_updates ← get_trip_updates env
    let route_timeline := get_route_timeline_for_card env route_id direction_id now
    let route_stops :=
      match get_route_stop_predictions env route_id direction_id with
      | .ok v => v
      | .error _ => ({ stops := [], destination := none, stop_count := 0 } : RouteStopData)
    return ({ trips := trips
              vehicle_positions := vehicle_positions
              trip_updates := trip_updates
              route_stops := route_stops
              route_timeline := route_timeline } : CoordinatorData)
  ).mapError (fun e => "Error communicating with API: " ++ e)

/-- Sort key tuple of the second, effective definition of
`_create_sorted_route_options` (config_flow.py:294-314).  The leading
group tag 0/1/2 of the Python tuples keeps the heterogeneous tails from
ever being compared across groups. -/
inductive LiveKey where
  | knum (n : Int) (long : String)
  | kalphanum (alpha : String) (n : Int) (long : String)
  | kalpha (short : String) (long : String)
deriving DecidableEq, Repr

/-- The regex `([A-Za-z]*)(\d+)` anchored at the start
(config_flow.py:308): a maximal run of ASCII letters followed immediately
by at least one digit; the captured number is the maximal digit run.
Backtracking cannot produce any other split, because shortening the
maximal letter run exposes a letter, never a digit. -/
def alphaNumMatch (s : String) : Option (String × Nat) :=
  let cs := s.toList
  let alpha := cs.takeWhile Char.isAlpha
  let digits := (cs.dropWhile Char.isAlpha).takeWhile Char.isDigit
  if digits.isEmpty then none
  else some (String.mk alpha, digitsToNat digits)

/-- `sort_key` of the effective `_create_sorted_route_options`
(config_flow.py:294-314): a short name accepted by `int()` sorts in
group 0 by value; otherwise a name matching `([A-Za-z]*)(\d+)` sorts in
group 1 by lower-cased letter prefix then number; everything else sorts
in group 2 by lower-cased short name.  Every group breaks ties on the
lower-cased long name. -/
def liveSortKey (r : Route) : LiveKey :=
  let short_name := r.route_short_name.getD ""
  let long_name := r.route_long_name.getD ""
  match pyInt short_name with
  | some n => .knum n (lowerStr long_name)
  | none =>
    match alphaNumMatch short_name with
    | some (alpha, n) => .kalphanum (lowerStr alpha) n (lowerStr long_name)
    | none => .kalpha (lowerStr short_name) (lowerStr long_name)

/-- Python tuple-`<` on the key tuples of the effective sort key. -/
def liveKeyLt : LiveKey → LiveKey → Bool
  | .knum n1 l1, .knum n2 l2 =>
    if n1 < n2 then true else if n2 < n1 then false else pyStrLt l1 l2
  | .knum _ _, _ => true
  | .kalphanum _ _ _, .knum _ _ => false
  | .kalphanum a1 n1 l1, .kalphanum a2 n2 l2 =>
    if pyStrLt a1 a2 then true
    else if pyStrLt a2 a1 then false
    else if n1 < n2 then true
    else if n2 < n1 then false
    else pyStrLt l1 l2
  | .kalphanum _ _ _, .kalpha _ _ => true
  | .kalpha _ _, .knum _ _ => false
  | .kalpha _ _, .kalphanum _ _ _ => false
  | .kalpha s1 l1, .kalpha s2 l2 =>
    if pyStrLt s1 s2 then true else if pyStrLt s2 s1 then false else pyStrLt l1 l2

/-- Sort key tuple of the first, shadowed definition
(config_flow.py:251-275): tag 0 for names with a leading digit run, tag 1
for other nonempty names, tag 2 for empty ones (the constant middle
components 0 and "zzz" never differ within their group). -/
inductive ShadowKey where
  | knum (n : Int) (text : String)
  | ktext (short : String)
  | kempty (short : String)
deriving DecidableEq, Repr

/-- `sort_key` of the shadowed `_create_sorted_route_options`
(config_flow.py:251-275).  The first branch takes the leading digit run
`^(\d+)` as the number and lower-cases the rest of the name as tiebreak —
the suffix is taken after `len(str(numeric_part))` characters, exactly as
written, so leading zeros would shift it; the mixed branch at
config_flow.py:268-272 demands a leading digit and is unreachable after
the first branch. -/
def shadowSortKey (r : Route) : ShadowKey :=
  let short_name := r.route_short_name.getD ""
  if short_name = "" then .kempty ""
  else
    let run := short_name.toList.takeWhile Char.isDigit
    if run.isEmpty then .ktext (lowerStr short_name)
    else
      let n : Int := (digitsToNat run : Int)
      .knum n (lowerStr (String.mk (short_name.toList.drop (toString n).length)))

/-- Python tuple-`<` on the key tuples of the shadowed sort key. -/
def shadowKeyLt : ShadowKey → ShadowKey → Bool
  | .knum n1 t1, .knum n2 t2 =>
    if n1 < n2 then true else if n2 < n1 then false else pyStrLt t1 t2
  | .knum _ _, _ => true
  | .ktext _, .knum _ _ => false
  | .ktext s1, .ktext s2 => pyStrLt s1 s2
  | .ktext _, .kempty _ => true
  | .kempty _, .knum _ _ => false
  | .kempty _, .ktext _ => false
  | .kempty s1, .kempty s2 => pyStrLt s1 s2

/-- Insert into a Python dict modelled as an insertion-ordered
association list: an existing key keeps its position and takes the new
value, a new key is appended. -/
def assocUpdate (k : JVal) (v : String) (l : List (JVal × String)) :
    List (JVal × String) :=
  if l.any (fun p => p.1 = k) then
    l.map (fun p => if p.1 = k then (k, v) else p)
  else l ++ [(k, v)]

/-- The options dict built from the sorted routes
(config_flow.py:320-330): `route_id` maps to
`"{route_short_name} :: {route_long_name}"` with the `dict.get`
defaults. -/
def optionsOf (rs : List Route) : List (JVal × String) :=
  rs.foldl
    (fun acc r =>
      assocUpdate r.route_id
        ((r.route_short_name.getD "Unknown") ++ " :: " ++
          (r.route_long_name.getD "Unknown Route")) acc)
    []

/-- The effective `_create_sorted_route_options`
(config_flow.py:292-330): Python executes a class body top to bottom and
a second `def` of the same name rebinds it, so only this second
definition is ever callable; the dict is returned as an
insertion-ordered association list. -/
def create_sorted_route_options (routes : List Route) : List (JVal × String) :=
  optionsOf (sortLt (fun a b => liveKeyLt (liveSortKey a) (liveSortKey b)) routes)

/-- The first, shadowed `_create_sorted_route_options`
(config_flow.py:245-290), which the spec's sort description matches: it
additionally short-circuits to `{}` on an empty route list
(config_flow.py:247-248). -/
def create_sorted_route_options_shadowed (routes : List Route) :
    List (JVal × String) :=
  if routes.isEmpty then []
  else optionsOf (sortLt (fun a b => shadowKeyLt (shadowSortKey a) (shadowSortKey b)) routes)

/-- The display string the fallback at api.py:414-419 produces from the
stored scheduled time: a truthy value gets the "Scheduled: " label, a
null or empty one leaves the initial "No predictions". -/
def etaFallbackDisplay : Option String → String
  | none => "No predictions"
  | some d => if d = "" then "No predictions" else "Scheduled: " ++ d

/-! ## Concrete test data used by the witnesses and counterexamples -/

/-- The spec's route-sort example input `["83","1","AX","31x","2"]`. -/
def demoRoutes : List Route :=
  [ { route_id := .jstr "83", route_short_name := some "83",
      route_long_name := some "L83", route_type := some 3 },
    { route_id := .jstr "1", route_short_name := some "1",
      route_long_name := some "L1", route_type := some 3 },
    { route_id := .jstr "AX", route_short_name := some "AX",
      route_long_name := some "LAX", route_type := some 3 },
    { route_id := .jstr "31x", route_short_name := some "31x",
      route_long_name := some "L31x", route_type := some 3 },
    { route_id := .jstr "2", route_short_name := some "2",
      route_long_name := some "L2", route_type := some 3 } ]

/-- A trip of route 7, direction 0 (the representative trip). -/
def demoTrip : Trip := { route_id := .jnum 7, direction_id := some 0, trip_id := "T1" }

def demoTrips : List Trip :=
  [ demoTrip, { route_id := .jnum 7, direction_id := some 1, trip_id := "T2" } ]

def demoStops : List Stop :=
  [ { stop_id := .jnum 10, stop_name := some "Alpha", stop_lat := none, stop_lon := none },
    { stop_id := .jnum 11, stop_name := some "Beta", stop_lat := none, stop_lon := none },
    { stop_id := .jnum 12, stop_name := some "Gamma", stop_lat := none, stop_lon := none } ]

/-- Stop times of trip T1, deliberately unsorted, with sequences starting
at 1 (not 0), a null departure at the final stop, and a row whose stop id
999 is absent from the stops resource. -/
def demoStopTimes (tid : String) : List StopTime :=
  if tid = "T1" then
    [ { stop_id := .jnum 11, stop_sequence := 2,
        arrival_time := some "08:10:00", departure_time := some "08:11:00" },
      { stop_id := .jnum 10, stop_sequence := 1,
        arrival_time := some "08:00:00", departure_time := some "08:01:00" },
      { stop_id := .jnum 999, stop_sequence := 4,
        arrival_time := some "08:30:00", departure_time := some "08:31:00" },
      { stop_id := .jnum 12, stop_sequence := 3,
        arrival_time := some "08:20:00", departure_time := none } ]
  else []

/-- The pattern `resolve` produces from the demo data: sorted by
sequence, with the unmatched stop 999 dropped. -/
def demoPattern : List PatternStop :=
  [ { stop_id := .jnum 10, stop_name := some "Alpha", stop_lat := none, stop_lon := none,
      stop_sequence := 1, arrival_time := some "08:00:00", departure_time := some "08:01:00" },
    { stop_id := .jnum 11, stop_name := some "Beta", stop_lat := none, stop_lon := none,
      stop_sequence := 2, arrival_time := some "08:10:00", departure_time := some "08:11:00" },
    { stop_id := .jnum 12, stop_name := some "Gamma", stop_lat := none, stop_lon := none,
      stop_sequence := 3, arrival_time := some "08:20:00", departure_time := none } ]

/-- A fetch environment whose static resources all succeed while every
real-time `/stop-predictions` request fails with a transport error. -/
def demoEnv : FetchEnv :=
  { routes := .ok []
    trips := .ok demoTrips
    stops := .ok demoStops
    stop_times := fun tid => .ok (demoStopTimes tid)
    vehicle_positions := .ok []
    trip_updates := .ok []
    stop_predictions := fun _ => .error "realtime down" }

/-- `demoEnv` with only the coordinator's direct real-time
vehicle-positions fetch failing; all static resources stay healthy. -/
def vpFailEnv : FetchEnv := { demoEnv with vehicle_positions := .error "boom" }

/-- `demoEnv` with only the static stops resource failing — reached only
inside `get_route_timeline_for_card` / `get_route_stop_predictions`. -/
def stopsFailEnv : FetchEnv := { demoEnv with stops := .error "stops down" }

/-- `demoEnv` with only the static trips resource failing, which the
coordinator fetches directly at sensor.py:63. -/
def tripsFailEnv : FetchEnv := { demoEnv with trips := .error "gtfs down" }

/-- A real-time prediction for route 1 direction 0 at 08:00:00. -/
def rtPred : Prediction :=
  { route_id := .jstr "1", route_short_name := none,
    direction_id := some 0, departure_time := some "08:00:00" }

/-- A prediction departing just after midnight, for the rollover case. -/
def rolloverPred : Prediction :=
  { route_id := .jstr "1", route_short_name := none,
    direction_id := some 0, departure_time := some "00:05:00" }

/-- A pattern stop with a truthy scheduled departure. -/
def rtStop : PatternStop :=
  { stop_id := .jnum 10, stop_name := some "Alpha", stop_lat := none, stop_lon := none,
    stop_sequence := 1, arrival_time := some "07:59:00", departure_time := some "08:00:00" }

/-! ## Lemmas about the stable sort -/

theorem insertLt_perm (lt : α → α → Bool) (x : α) (l : List α) :
    (insertLt lt x l).Perm (x :: l) := by
  induction l with
  | nil => simp [insertLt]
  | cons y ys ih =>
    by_cases h : lt y x = true
    · simp only [insertLt, h, if_true]
      exact (List.Perm.cons y ih).trans (List.Perm.swap x y ys)
    · simp [insertLt, h]

theorem sortLt_perm (lt : α → α → Bool) (l : List α) : (sortLt lt l).Perm l := by
  induction l with
  | nil => simp [sortLt]
  | cons x xs ih => exact (insertLt_perm lt x (sortLt lt xs)).trans (List.Perm.cons x ih)

theorem mem_insertLt (lt : α → α → Bool) (x : α) (l : List α) (z : α) :
    z ∈ insertLt lt x l ↔ z = x ∨ z ∈ l := by
  rw [(insertLt_perm lt x l).mem_iff]
  exact List.mem_cons

theorem mem_sortLt (lt : α → α → Bool) (l : List α) (z : α) :
    z ∈ sortLt lt l ↔ z ∈ l :=
  (sortLt_perm lt l).mem_iff

theorem length_sortLt (lt : α → α → Bool) (l : List α) :
    (sortLt lt l).length = l.length :=
  (sortLt_perm lt l).length_eq

theorem pairwise_insertLt (lt : α → α → Bool)
    (hasymm : ∀ a b, lt a b = true → lt b a = false)
    (hneg : ∀ a b c, lt b a = false → lt c b = false → lt c a = false)
    (x : α) (l : List α) (hl : l.Pairwise (fun a b => lt b a = false)) :
    (insertLt lt x l).Pairwise (fun a b => lt b a = false) := by
  induction l with
  | nil => simp [insertLt]
  | cons y ys ih =>
    rcases List.pairwise_cons.mp hl with ⟨hy, hys⟩
    by_cases h : lt y x = true
    · simp only [insertLt, h, if_true]
      refine List.pairwise_cons.mpr ⟨?_, ih hys⟩
      intro z hz
      rcases (mem_insertLt lt x ys z).mp hz with rfl | hz'
      · exact hasymm y z h
      · exact hy z hz'
    · have h' : lt y x = false := by simpa using h
      simp only [insertLt, h, if_false]
      refine List.pairwise_cons.mpr ⟨?_, hl⟩
      intro z hz
      rcases List.mem_cons.mp hz with rfl | hz'
      · exact h'
      · exact hneg x y z h' (hy z hz')

theorem pairwise_sortLt (lt : α → α → Bool)
    (hasymm : ∀ a b, lt a b = true → lt b a = false)
    (hneg : ∀ a b c, lt b a = false → lt c b = false → lt c a = false)
    (l : List α) : (sortLt lt l).Pairwise (fun a b => lt b a = false) := by
  induction l with
  | nil => simp [sortLt]
  | cons x xs ih => exact pairwise_insertLt lt hasymm hneg x (sortLt lt xs) ih

theorem filter_insertLt_of_pos (lt : α → α → Bool) (p : α → Bool) (x : α)
    (hx : p x = true) (hcomp : ∀ y, p y = true → lt y x = false) (l : List α) :
    (insertLt lt x l).filter p = x :: l.filter p := by
  induction l with
  | nil => simp [insertLt, hx]
  | cons y ys ih =>
    by_cases h : lt y x = true
    · have hpy : p y = false := by
        cases hpy : p y
        · rfl
        · exact absurd (hcomp y hpy) (by simp [h])
      simp only [insertLt, h, if_true, List.filter_cons, hpy, ih]
      simp
    · simp [insertLt, h, List.filter_cons, hx]

theorem filter_insertLt_of_neg (lt : α → α → Bool) (p : α → Bool) (x : α)
    (hx : p x = false) (l : List α) :
    (insertLt lt x l).filter p = l.filter p := by
  induction l with
  | nil => simp [insertLt, hx]
  | cons y ys ih =>
    by_cases h : lt y x = true
    · simp only [insertLt, h, if_true, List.filter_cons, ih]
    · simp [insertLt, h, List.filter_cons, hx]

/-- Stability of the sort: elements whose key agrees on a property that
forces key-equality appear in the sorted output in their original
relative order. -/
theorem sortLt_filter (lt : α → α → Bool) (p : α → Bool)
    (hcomp : ∀ a b, p a = true → p b = true → lt a b = false) (l : List α) :
    (sortLt lt l).filter p = l.filter p := by
  induction l with
  | nil => rfl
  | cons x xs ih =>
    by_cases hx : p x = true
    · rw [sortLt, filter_insertLt_of_pos lt p x hx (fun y hy => hcomp y x hy hx), ih,
        List.filter_cons_of_pos hx]
    · have hx' : p x = false := by simpa using hx
      rw [sortLt, filter_insertLt_of_neg lt p x hx', ih, List.filter_cons_of_neg]
      simp [hx']

theorem length_filterMap_eq_countP (f : α → Option β) (l : List α) :
    (l.filterMap f).length = l.countP (fun a => (f a).isSome) := by
  induction l with
  | nil => rfl
  | cons x xs ih =>
    cases hfx : f x with
    | none => simp [List.filterMap_cons, List.countP_cons, hfx, ih]
    | some b => simp [List.filterMap_cons, List.countP_cons, hfx, ih]

theorem map_filterMap_sublist_map {γ : Type} (f : α → Option β) (g : β → γ) (h : α → γ)
    (hpres : ∀ a b, f a = some b → g b = h a) (l : List α) :
    ((l.filterMap f).map g).Sublist (l.map h) := by
  induction l with
  | nil => simp
  | cons x xs ih =>
    cases hfx : f x with
    | none =>
      simp only [List.filterMap_cons, hfx, List.map_cons]
      exact ih.cons (h x)
    | some b =>
      simp only [List.filterMap_cons, hfx, List.map_cons, hpres x b hfx]
      exact ih.cons₂ (h x)

/-! ## Lemmas about the resolver -/

theorem stopsDictFind_aux (sid : String) (stops : List Stop) (acc : Option Stop)
    (hacc : ∀ a, acc = some a → pyStr a.stop_id = sid) (stop : Stop)
    (h : stops.foldl (fun acc st => if pyStr st.stop_id = sid then some st else acc) acc
        = some stop) :
    pyStr stop.stop_id = sid := by
  induction stops generalizing acc with
  | nil => exact hacc stop h
  | cons s rest ih =>
    refine ih (if pyStr s.stop_id = sid then some s else acc) ?_ h
    intro a ha
    by_cases hs : pyStr s.stop_id = sid
    · simp only [hs, if_true] at ha
      cases ha
      exact hs
    · simp only [hs, if_false] at ha
      exact hacc a ha

theorem stopsDictFind_spec (stops : List Stop) (sid : String) (stop : Stop)
    (h : stopsDictFind stops sid = some stop) : pyStr stop.stop_id = sid :=
  stopsDictFind_aux sid stops none (by intro a ha; cases ha) stop h

theorem mkPatternStop_seq (stops : List Stop) (st : StopTime) (p : PatternStop)
    (h : mkPatternStop stops st = some p) : p.stop_sequence = st.stop_sequence := by
  unfold mkPatternStop at h
  cases hf : stopsDictFind stops (pyStr st.stop_id) with
  | none => rw [hf] at h; cases h
  | some stop => rw [hf] at h; cases h; rfl

theorem mkPatternStop_id (stops : List Stop) (st : StopTime) (p : PatternStop)
    (h : mkPatternStop stops st = some p) : pyStr p.stop_id = pyStr st.stop_id := by
  unfold mkPatternStop at h
  cases hf : stopsDictFind stops (pyStr st.stop_id) with
  | none => rw [hf] at h; cases h
  | some stop =>
    rw [hf] at h
    cases h
    exact stopsDictFind_spec stops (pyStr st.stop_id) stop hf

/-- Evaluating the resolver when all three fetches succeed. -/
theorem get_route_stop_pattern_ok (trips : List Trip)
    (stop_times : String → List StopTime) (stops : List Stop)
    (route_id : String) (direction_id : Int) :
    get_route_stop_pattern (.ok trips) (fun tid => .ok (stop_times tid)) (.ok stops)
        route_id direction_id =
      .ok (match directionTrips trips route_id direction_id with
        | [] => []
        | sample :: _ =>
          let st := sortLt stopSeqLt (stop_times sample.trip_id)
          if st.isEmpty then [] else st.filterMap (mkPatternStop stops)) := by
  simp only [get_route_stop_pattern, get_trips_for_route, get_stop_times_for_trip,
    directionTrips, Except.map, bind, Except.bind]
  cases hd : (trips.filter (fun t => pyStr t.route_id = route_id)).filter
      (fun t => t.direction_id = some direction_id) with
  | nil => rfl
  | cons sample rest =>
    by_cases h : (sortLt stopSeqLt (stop_times sample.trip_id)).isEmpty
    · simp only [h, if_true]
      rfl
    · simp only [h, if_false]
      rfl

/-! ## Helper lemmas about the ETA computation -/

theorem etaCore_nil (stop : PatternStop) (now : Nat) :
    etaCore [] stop now =
      (etaFallbackDisplay (scheduledTime stop), 0,
        match scheduledTime stop with
        | none => none
        | some d => if d = "" then none else some d) := by
  unfold etaCore etaFallbackDisplay
  cases scheduledTime stop with
  | none => rfl
  | some d =>
    by_cases hd : d = ""
    · simp [hd]
    · simp [hd]

theorem etaCore_parsed (p : Prediction) (rest : List Prediction)
    (stop : PatternStop) (now : Nat) (dt : String) (dep : Nat)
    (hdt : p.departure_time = some dt) (hne : dt ≠ "")
    (hparse : parseHMS dt = some dep) :
    etaCore (p :: rest) stop now =
      (formatEta (etaSeconds dep now), etaSeconds dep now, some dt) := by
  simp [etaCore, hdt, hparse, hne]

/-- C10: `get_stop_predictions` never raises and returns the parsed body
exactly when the HTTP status is 200 and the body is a list; a non-200
status, a non-list body, or any exception during the request or parse
yields `[]` instead.  The other fetchers re-raise their transport
failures. -/
theorem C10_stop_predictions_swallow :
    (∀ e, get_stop_predictions (.error e) = []) ∧
    (∀ items, get_stop_predictions (.ok (200, .ok (.plist items))) = items) ∧
    (∀ status body, status ≠ 200 → get_stop_predictions (.ok (status, body)) = []) ∧
    (∀ status e, get_stop_predictions (.ok (status, .error e)) = []) ∧
    (∀ status, get_stop_predictions (.ok (status, .ok .pother)) = []) ∧
    (∀ (env : FetchEnv) (rid : String) e, env.trips = Except.error e →
      get_trips_for_route env.trips rid = .error e) ∧
    (∀ (env : FetchEnv) e, env.trip_updates = Except.error e →
      get_trip_updates env = .error e) ∧
    (∀ (env : FetchEnv) e, env.routes = Except.error e → get_routes env = .error e) ∧
    (∀ (env : FetchEnv) e, env.vehicle_positions = Except.error e →
      get_vehicle_positions env = .error e) := by
  refine ⟨fun e => rfl, fun items => by simp [get_stop_predictions],
    fun status body h => by simp [get_stop_predictions, h],
    fun status e => ?_, fun status => ?_,
    fun env rid e h => by simp [get_trips_for_route, h, Except.map],
    fun env e h => h, fun env e h => h, fun env e h => h⟩
  · by_cases h : status = 200
    · simp [get_stop_predictions, h]
    · simp [get_stop_predictions, h]
  · by_cases h : status = 200
    · simp [get_stop_predictions, h]
    · simp [get_stop_predictions, h]

theorem C10_witness :
    get_stop_predictions (.ok (404, .ok (.plist [rtPred]))) = [] :=
  C10_stop_predictions_swallow.2.2.1 404 (.ok (.plist [rtPred])) (by decide)

/-- C3: the route selector defines `_create_sorted_route_options` twice
(config_flow.py:245 and 292); Python silently rebinds the name, so only
the second definition runs.  On the spec's example input
["83","1","AX","31x","2"] the effective definition puts the
digits-then-letters name "31x" in a separate group after every purely
numeric name, producing ["1","2","83","31x","AX"], while the first,
shadowed definition produces the claimed ["1","2","31x","83","AX"]. -/
theorem C3_route_sort_shadowing :
    (create_sorted_route_options demoRoutes).map Prod.fst =
      [.jstr "1", .jstr "2", .jstr "83", .jstr "31x", .jstr "AX"] ∧
    (create_sorted_route_options_shadowed demoRoutes).map Prod.fst =
      [.jstr "1", .jstr "2", .jstr "31x", .jstr "83", .jstr "AX"] ∧
    (create_sorted_route_options demoRoutes).map Prod.fst ≠
      (create_sorted_route_options_shadowed demoRoutes).map Prod.fst := by
  exact ⟨by decide, by decide, by decide⟩

/-- C9: the four core operations — `build`, `resolve`, `match`,
`list_routes` — are deterministic functions of their explicit inputs.
The embedding threads every effect (the fetched resources and the clock)
as arguments; with those fixed, two invocations agree. -/
theorem C9_pure_functions (env1 env2 : FetchEnv) (rid1 rid2 : String)
    (did1 did2 : Int) (now1 now2 : Nat) (t : Int)
    (henv : env1 = env2) (hrid : rid1 = rid2) (hdid : did1 = did2)
    (hnow : now1 = now2) :
    get_route_timeline_for_card env1 rid1 did1 now1 =
      get_route_timeline_for_card env2 rid2 did2 now2 ∧
    get_route_stop_pattern env1.trips env1.stop_times env1.stops rid1 did1 =
      get_route_stop_pattern env2.trips env2.stop_times env2.stops rid2 did2 ∧
    get_route_stop_predictions env1 rid1 did1 =
      get_route_stop_predictions env2 rid2 did2 ∧
    get_routes_by_type env1 t = get_routes_by_type env2 t := by
  subst henv hrid hdid hnow
  exact ⟨rfl, rfl, rfl, rfl⟩

theorem C9_witness :
    get_route_timeline_for_card demoEnv "7" 0 100 =
      get_route_timeline_for_card demoEnv "7" 0 100 ∧
    get_route_stop_pattern demoEnv.trips demoEnv.stop_times demoEnv.stops "7" 0 =
      get_route_stop_pattern demoEnv.trips demoEnv.stop_times demoEnv.stops "7" 0 ∧
    get_route_stop_predictions demoEnv "7" 0 = get_route_stop_predictions demoEnv "7" 0 ∧
    get_routes_by_type demoEnv 3 = get_routes_by_type demoEnv 3 :=
  C9_pure_functions demoEnv demoEnv "7" "7" 0 0 100 100 3 rfl rfl rfl rfl

/-- C4: when a timeline stop's next departure parses, its `eta_seconds`
is the (rollover-adjusted) difference to now and its `eta_display` is
rendered from `eta_seconds` by exactly the claimed thresholds:
nonpositive gives "Due now", below a minute "{s}s", below an hour
"{m}m {s}s", otherwise "{h}h {m}m"; in particular 0 seconds is "Due now",
59 is "59s", 60 is "1m 0s" and 3600 is "1h 0m". -/
theorem C4_eta_thresholds (route_id : String) (direction_id : Int)
    (patternLen now : Nat) (stop : PatternStop) (fetched : List Prediction)
    (p : Prediction) (rest : List Prediction) (dt : String) (dep : Nat)
    (hp : effectivePredictions route_id direction_id fetched = p :: rest)
    (hdt : p.departure_time = some dt) (hne : dt ≠ "")
    (hparse : parseHMS dt = some dep) :
    (buildTimelineStop route_id direction_id patternLen now stop fetched).eta_seconds =
      etaSeconds dep now ∧
    (buildTimelineStop route_id direction_id patternLen now stop fetched).eta_display =
      formatEta (etaSeconds dep now) ∧
    (∀ e : Int, e ≤ 0 → formatEta e = "Due now") ∧
    (∀ e : Int, 0 < e → e < 60 → formatEta e = toString e ++ "s") ∧
    (∀ e : Int, 60 ≤ e → e < 3600 →
      formatEta e = toString (Int.fdiv e 60) ++ "m " ++ toString (Int.fmod e 60) ++ "s") ∧
    (∀ e : Int, 3600 ≤ e →
      formatEta e = toString (Int.fdiv (Int.fdiv e 60) 60) ++ "h " ++
        toString (Int.fmod (Int.fdiv e 60) 60) ++ "m") ∧
    formatEta 0 = "Due now" ∧ formatEta 59 = "59s" ∧ formatEta 60 = "1m 0s" ∧
    formatEta 3600 = "1h 0m" := by
  have hcore := etaCore_parsed p rest stop now dt dep hdt hne hparse
  refine ⟨?_, ?_, ?_, ?_, ?_, ?_, by decide, by decide, by decide, by decide⟩
  · simp only [buildTimelineStop, hp, hcore]
  · simp only [buildTimelineStop, hp, hcore]
  · intro e he
    simp only [formatEta]
    rw [if_pos he]
  · intro e h1 h2
    simp only [formatEta]
    rw [if_neg (by omega), if_pos h2]
  · intro e h1 h2
    have hdiv : Int.fdiv e 60 < 60 := by
      rw [Int.fdiv_eq_ediv e (by norm_num)]
      omega
    simp only [formatEta]
    rw [if_neg (by omega), if_neg (by omega), if_pos hdiv]
  · intro e h1
    have hdiv : ¬ Int.fdiv e 60 < 60 := by
      rw [Int.fdiv_eq_ediv e (by norm_num)]
      omega
    simp only [formatEta]
    rw [if_neg (by omega), if_neg (by omega), if_neg hdiv]

theorem C4_witness :
    (buildTimelineStop "1" 0 3 0 rtStop [rtPred]).eta_display =
      formatEta (etaSeconds 28800 0) ∧
    (buildTimelineStop "1" 0 3 0 rtStop [rtPred]).eta_seconds = 28800 ∧
    formatEta 3600 = "1h 0m" := by
  have h := C4_eta_thresholds "1" 0 3 0 rtStop [rtPred] rtPred [] "08:00:00" 28800
    (by decide) rfl (by decide) (by decide)
  exact ⟨h.2.1, h.1.trans (by decide), h.2.2.2.2.2.2.2.2.2⟩

/-- C5: a departure whose combined instant is already past is rolled
forward one day before the ETA is taken, so its `eta_seconds` is
`dep + 86400 - now`, which is positive whenever `now` is a valid
time of day. -/
theorem C5_midnight_rollover (route_id : String) (direction_id : Int)
    (patternLen now : Nat) (stop : PatternStop) (fetched : List Prediction)
    (p : Prediction) (rest : List Prediction) (dt : String) (dep : Nat)
    (hp : effectivePredictions route_id direction_id fetched = p :: rest)
    (hdt : p.departure_time = some dt) (hne : dt ≠ "")
    (hparse : parseHMS dt = some dep)
    (hpast : dep < now) (hday : now < 86400) :
    (buildTimelineStop route_id direction_id patternLen now stop fetched).eta_seconds =
      (dep : Int) + 86400 - now ∧
    0 < (buildTimelineStop route_id direction_id patternLen now stop fetched).eta_seconds := by
  have hcore := etaCore_parsed p rest stop now dt dep hdt hne hparse
  have he : etaSeconds dep now = (dep : Int) + 86400 - now := by
    unfold etaSeconds
    rw [if_pos hpast]
  constructor
  · simp only [buildTimelineStop, hp, hcore, he]
  · simp only [buildTimelineStop, hp, hcore, he]
    omega

/-- The spec's rollover example: departure "00:05:00" seen at 23:50:00 of
the prior day gives 900 positive seconds, not a large negative ETA. -/
theorem C5_witness :
    (buildTimelineStop "1" 0 3 85800 rtStop [rolloverPred]).eta_seconds = 900 ∧
    0 < (buildTimelineStop "1" 0 3 85800 rtStop [rolloverPred]).eta_seconds := by
  have h := C5_midnight_rollover "1" 0 3 85800 rtStop [rolloverPred] rolloverPred []
    "00:05:00" 300 (by decide) rfl (by decide) (by decide) (by decide) (by decide)
  exact ⟨h.1.trans (by decide), h.2⟩

/-- C6 counterexample: the demo pattern's final stop (id 12) carries a
null `departure_time` and arrival "08:20:00"; with no real-time
predictions the claim requires the arrival fallback
"Scheduled: 08:20:00", but the built timeline shows "No predictions" —
the `departure_time` key is always present in a pattern stop, so
`dict.get` never reaches its arrival default. -/
theorem C6_counterexample :
    ((get_route_timeline_for_card demoEnv "7" 0 100).stops.map
        (fun s => (s.stop_id, s.scheduled_time, s.eta_display, s.next_departure,
          s.has_real_time))) =
      [("10", some "08:01:00", "Scheduled: 08:01:00", some "08:01:00", false),
       ("11", some "08:11:00", "Scheduled: 08:11:00", some "08:11:00", false),
       ("12", none, "No predictions", none, false)] ∧
    demoPattern.map (fun p => p.arrival_time) =
      [some "08:00:00", some "08:10:00", some "08:20:00"] ∧
    ("No predictions" : String) ≠ "Scheduled: 08:20:00" := by
  exact ⟨by decide, by decide, by decide⟩

/-- C6 (amended): a pattern stop with no usable real-time prediction
falls back to its stored scheduled `departure_time` value — never to
`arrival_time`, because the `departure_time` key is always present in a
pattern stop — labelling a truthy value with "Scheduled: " and leaving a
null one as "No predictions", with `has_real_time` false either way. -/
theorem C6_scheduled_fallback (route_id : String) (direction_id : Int)
    (patternLen now : Nat) (stop : PatternStop) (fetched : List Prediction)
    (hp : effectivePredictions route_id direction_id fetched = []) :
    (buildTimelineStop route_id direction_id patternLen now stop fetched).has_real_time
      = false ∧
    (buildTimelineStop route_id direction_id patternLen now stop fetched).prediction_count
      = 0 ∧
    (buildTimelineStop route_id direction_id patternLen now stop fetched).scheduled_time
      = stop.departure_time ∧
    (buildTimelineStop route_id direction_id patternLen now stop fetched).eta_display
      = etaFallbackDisplay stop.departure_time ∧
    (∀ d, stop.departure_time = some d → d ≠ "" →
      (buildTimelineStop route_id direction_id patternLen now stop fetched).eta_display
        = "Scheduled: " ++ d ∧
      (buildTimelineStop route_id direction_id patternLen now stop fetched).next_departure
        = some d) ∧
    (stop.departure_time = none →
      (buildTimelineStop route_id direction_id patternLen now stop fetched).eta_display
        = "No predictions" ∧
      (buildTimelineStop route_id direction_id patternLen now stop fetched).next_departure
        = none) := by
  have hcore := etaCore_nil stop now
  refine ⟨?_, ?_, rfl, ?_, ?_, ?_⟩
  · simp [buildTimelineStop, hp]
  · simp [buildTimelineStop, hp]
  · simp only [buildTimelineStop, hp, hcore]
    rfl
  · intro d hd hne
    have hs : scheduledTime stop = some d := hd
    constructor
    · simp only [buildTimelineStop, hp, hcore, hs]
      simp [etaFallbackDisplay, hne]
    · simp only [buildTimelineStop, hp, hcore, hs]
      simp [hne]
  · intro hd
    have hs : scheduledTime stop = none := hd
    constructor
    · simp only [buildTimelineStop, hp, hcore, hs]
      simp [etaFallbackDisplay]
    · simp only [buildTimelineStop, hp, hcore, hs]

theorem C6_witness :
    (buildTimelineStop "1" 0 3 100 rtStop []).eta_display = "Scheduled: " ++ "08:00:00" ∧
    (buildTimelineStop "1" 0 3 100 rtStop []).next_departure = some "08:00:00" ∧
    (buildTimelineStop "1" 0 3 100 rtStop []).has_real_time = false := by
  have h := C6_scheduled_fallback "1" 0 3 100 rtStop [] (by decide)
  exact ⟨(h.2.2.2.2.1 "08:00:00" rfl (by decide)).1,
    (h.2.2.2.2.1 "08:00:00" rfl (by decide)).2, h.1⟩

/-- C7 counterexample: the demo pattern numbers its stops 1,2,3, so the
`stop_sequence == len(pattern) - 1` test marks the middle stop (sequence
2 = 3 - 1) as destination and leaves the true final stop unmarked —
against the claim that the final element is flagged regardless of the
numbering. -/
theorem C7_counterexample :
    ((get_route_timeline_for_card demoEnv "7" 0 100).stops.map
        (fun s => (s.stop_sequence, s.is_departure, s.is_destination))) =
      [(1, false, false), (2, false, true), (3, false, false)] ∧
    (((get_route_timeline_for_card demoEnv "7" 0 100).stops.getLast?).map
        (fun s => s.is_destination)) = some false := by
  exact ⟨by decide, by decide⟩

/-- C7 (amended): in every built timeline, `is_departure` holds exactly
for stops whose `stop_sequence` value is 0, and `is_destination` exactly
for stops whose `stop_sequence` value equals the pattern length minus
one — a value test that coincides with the final element only when the
sequences are exactly 0..n-1. -/
theorem C7_flags (env : FetchEnv) (route_id : String) (direction_id : Int)
    (now : Nat) (pattern : List PatternStop)
    (hpat : get_route_stop_pattern env.trips env.stop_times env.stops route_id direction_id
      = .ok pattern) :
    ((get_route_timeline_for_card env route_id direction_id now).stops.all
      (fun s => s.is_departure == decide (s.stop_sequence = 0) &&
        s.is_destination == decide (s.stop_sequence = (pattern.length : Int) - 1)))
      = true := by
  rw [List.all_eq_true]
  intro s hs
  unfold get_route_timeline_for_card at hs
  rw [hpat] at hs
  cases pattern with
  | nil => simp at hs
  | cons p0 ps =>
    have hs' : s ∈ sortLt timelineSeqLt ((p0 :: ps).map (fun stop =>
        buildTimelineStop route_id direction_id (p0 :: ps).length now stop
          (get_stop_predictions (env.stop_predictions (pyStr stop.stop_id))))) := hs
    rw [mem_sortLt] at hs'
    rcases List.mem_map.mp hs' with ⟨stop, _hstop, rfl⟩
    simp [buildTimelineStop]

theorem C7_witness :
    ((get_route_timeline_for_card demoEnv "7" 0 100).stops.all
      (fun s => s.is_departure == decide (s.stop_sequence = 0) &&
        s.is_destination == decide (s.stop_sequence = (demoPattern.length : Int) - 1)))
      = true :=
  C7_flags demoEnv "7" 0 100 demoPattern rfl

theorem stopSeqLt_asymm (a b : StopTime) (h : stopSeqLt a b = true) :
    stopSeqLt b a = false := by
  simp [stopSeqLt] at *
  omega

theorem stopSeqLt_negtrans (a b c : StopTime) (h1 : stopSeqLt b a = false)
    (h2 : stopSeqLt c b = false) : stopSeqLt c a = false := by
  simp [stopSeqLt] at *
  omega

theorem mkPatternStop_isSome (stops : List Stop) (st : StopTime) :
    (mkPatternStop stops st).isSome = (stopsDictFind stops (pyStr st.stop_id)).isSome := by
  unfold mkPatternStop
  cases stopsDictFind stops (pyStr st.stop_id) <;> rfl

theorem mkPatternStop_mem_isSome (stops : List Stop) (st : StopTime) (p : PatternStop)
    (h : mkPatternStop stops st = some p) :
    (stopsDictFind stops (pyStr p.stop_id)).isSome = true := by
  have hid := mkPatternStop_id stops st p h
  rw [hid]
  unfold mkPatternStop at h
  cases hf : stopsDictFind stops (pyStr st.stop_id) with
  | none => simp [hf] at h
  | some stop => rfl

/-- C2: for a route/direction with at least one trip, `resolve` yields a
pattern sorted by non-decreasing `stop_sequence` (a stable ascending
sort), whose length counts exactly the representative trip's stop_times
whose normalised stop id is present in the stops resource; unmatched
stop ids are dropped without raising. -/
theorem C2_resolve_pattern (trips : List Trip) (stop_times : String → List StopTime)
    (stops : List Stop) (route_id : String) (direction_id : Int)
    (rep : Trip) (pattern : List PatternStop)
    (hrep : (directionTrips trips route_id direction_id).head? = some rep)
    (hpat : get_route_stop_pattern (.ok trips) (fun tid => .ok (stop_times tid)) (.ok stops)
      route_id direction_id = .ok pattern) :
    List.Sorted (· ≤ ·) (pattern.map PatternStop.stop_sequence) ∧
    pattern.length = (stop_times rep.trip_id).countP
      (fun st => (stopsDictFind stops (pyStr st.stop_id)).isSome) ∧
    (pattern.all (fun q => (stopsDictFind stops (pyStr q.stop_id)).isSome)) = true ∧
    (∀ k : Int,
      (sortLt stopSeqLt (stop_times rep.trip_id)).filter (fun st => st.stop_sequence == k)
        = (stop_times rep.trip_id).filter (fun st => st.stop_sequence == k)) := by
  have hstab : ∀ k : Int,
      (sortLt stopSeqLt (stop_times rep.trip_id)).filter (fun st => st.stop_sequence == k)
        = (stop_times rep.trip_id).filter (fun st => st.stop_sequence == k) := by
    intro k
    apply sortLt_filter
    intro a b ha hb
    have ha' : a.stop_sequence = k := by simpa using ha
    have hb' : b.stop_sequence = k := by simpa using hb
    simp only [stopSeqLt, ha', hb', decide_eq_false_iff_not]
    exact lt_irrefl k
  rw [get_route_stop_pattern_ok] at hpat
  obtain ⟨rest, hd⟩ : ∃ rest, directionTrips trips route_id direction_id = rep :: rest := by
    cases hdt : directionTrips trips route_id direction_id with
    | nil => rw [hdt] at hrep; cases hrep
    | cons a t =>
      rw [hdt] at hrep
      simp only [List.head?_cons, Option.some.injEq] at hrep
      exact ⟨t, by rw [hrep]⟩
  rw [hd] at hpat
  injection hpat with hval
  have hval' : (if (sortLt stopSeqLt (stop_times rep.trip_id)).isEmpty then []
      else (sortLt stopSeqLt (stop_times rep.trip_id)).filterMap (mkPatternStop stops))
      = pattern := hval
  by_cases hemp : (sortLt stopSeqLt (stop_times rep.trip_id)).isEmpty
  · rw [if_pos hemp] at hval'
    have h0 : sortLt stopSeqLt (stop_times rep.trip_id) = [] := by
      simpa [List.isEmpty_iff] using hemp
    have h1 : stop_times rep.trip_id = [] := by
      have hlen := length_sortLt stopSeqLt (stop_times rep.trip_id)
      rw [h0] at hlen
      exact List.length_eq_zero.mp hlen.symm
    subst hval'
    refine ⟨by simp, ?_, by simp, hstab⟩
    rw [h1]
    simp
  · rw [if_neg hemp] at hval'
    subst hval'
    refine ⟨?_, ?_, ?_, hstab⟩
    · have hpw := pairwise_sortLt stopSeqLt stopSeqLt_asymm stopSeqLt_negtrans
        (stop_times rep.trip_id)
      have hpw' : (sortLt stopSeqLt (stop_times rep.trip_id)).Pairwise
          (fun a b => a.stop_sequence ≤ b.stop_sequence) := by
        refine hpw.imp ?_
        intro a b h
        simp only [stopSeqLt, decide_eq_false_iff_not, not_lt] at h
        exact h
      have hsub := map_filterMap_sublist_map (mkPatternStop stops)
        PatternStop.stop_sequence StopTime.stop_sequence (mkPatternStop_seq stops)
        (sortLt stopSeqLt (stop_times rep.trip_id))
      have hmap := List.pairwise_map.mpr hpw'
      exact List.Pairwise.sublist hsub hmap
    · rw [length_filterMap_eq_countP]
      simp only [mkPatternStop_isSome]
      exact (sortLt_perm stopSeqLt (stop_times rep.trip_id)).countP_eq _
    · rw [List.all_eq_true]
      intro q hq
      rcases List.mem_filterMap.mp hq with ⟨st, _, hsome⟩
      exact mkPatternStop_mem_isSome stops st q hsome

theorem C2_witness :
    List.Sorted (· ≤ ·) (demoPattern.map PatternStop.stop_sequence) ∧
    demoPattern.length = (demoStopTimes "T1").countP
      (fun st => (stopsDictFind demoStops (pyStr st.stop_id)).isSome) ∧
    (demoPattern.all (fun q => (stopsDictFind demoStops (pyStr q.stop_id)).isSome)) = true ∧
    ((sortLt stopSeqLt (demoStopTimes "T1")).filter (fun st => st.stop_sequence == 2)
      = (demoStopTimes "T1").filter (fun st => st.stop_sequence == 2)) := by
  have h := C2_resolve_pattern demoTrips demoStopTimes demoStops "7" 0 demoTrip demoPattern
    rfl rfl
  exact ⟨h.1, h.2.1, h.2.2.1, h.2.2.2 2⟩

/-- C1 counterexample: in `vpFailEnv` every static resource is healthy
and only the real-time vehicle-positions fetch raises `MetlinkApiError`,
yet the refresh fails: the fetch at sensor.py:66 runs inside the outer
try only, so its error reaches sensor.py:117-119 and becomes
`UpdateFailed` — against the claim that real-time failures never fail
the refresh. -/
theorem C1_counterexample :
    async_update_data vpFailEnv "7" 0 100 = .error "Error communicating with API: boom" ∧
    vpFailEnv.trips = .ok demoTrips ∧
    vpFailEnv.stops = .ok demoStops ∧
    vpFailEnv.vehicle_positions = .error "boom" := by
  exact ⟨rfl, rfl, rfl, rfl⟩

/-- C1 (amended): real-time failures are converted to empty results only
inside the timeline/stop-prediction sub-pipeline.  When the coordinator's
three direct fetches succeed, the refresh returns data whose timeline is
`build`'s output; and when additionally every `/stop-predictions` fetch
fails (yielding `[]`), that timeline still contains every static-pattern
stop, each with `has_real_time` false, no predictions, and the
scheduled-time fallback display. -/
theorem C1_degraded_refresh (env : FetchEnv) (trips : List Trip) (vp tu : List JVal)
    (route_id : String) (direction_id : Int) (now : Nat) (pattern : List PatternStop)
    (htr : env.trips = .ok trips) (hvp : env.vehicle_positions = .ok vp)
    (htu : env.trip_updates = .ok tu)
    (hpred : ∀ sid, get_stop_predictions (env.stop_predictions sid) = [])
    (hpat : get_route_stop_pattern env.trips env.stop_times env.stops route_id direction_id
      = .ok pattern)
    (hne : pattern ≠ []) :
    (async_update_data env route_id direction_id now).isOk = true ∧
    (∀ d, async_update_data env route_id direction_id now = .ok d →
      d.route_timeline = get_route_timeline_for_card env route_id direction_id now) ∧
    (get_route_timeline_for_card env route_id direction_id now).error = none ∧
    (get_route_timeline_for_card env route_id direction_id now).stops.length
      = pattern.length ∧
    ((get_route_timeline_for_card env route_id direction_id now).stops.all
      (fun s => !s.has_real_time && s.prediction_count == 0 &&
        s.eta_display == etaFallbackDisplay s.scheduled_time)) = true := by
  have heval : async_update_data env route_id direction_id now =
      .ok { trips := trips.filter (fun t => pyStr t.route_id = route_id)
            vehicle_positions := vp
            trip_updates := tu
            route_stops :=
              match get_route_stop_predictions env route_id direction_id with
              | .ok v => v
              | .error _ => ({ stops := [], destination := none, stop_count := 0 } :
                  RouteStopData)
            route_timeline := get_route_timeline_for_card env route_id direction_id now } := by
    unfold async_update_data get_trips_for_route get_vehicle_positions get_trip_updates
    rw [htr, hvp, htu]
    rfl
  cases pattern with
  | nil => exact absurd rfl hne
  | cons p0 ps =>
    have hstops : (get_route_timeline_for_card env route_id direction_id now).stops =
        sortLt timelineSeqLt ((p0 :: ps).map (fun stop =>
          buildTimelineStop route_id direction_id (p0 :: ps).length now stop
            (get_stop_predictions (env.stop_predictions (pyStr stop.stop_id))))) := by
      unfold get_route_timeline_for_card
      rw [hpat]
    have herr : (get_route_timeline_for_card env route_id direction_id now).error = none := by
      unfold get_route_timeline_for_card
      rw [hpat]
    refine ⟨?_, ?_, herr, ?_, ?_⟩
    · rw [heval]
      rfl
    · intro d hd
      rw [heval] at hd
      injection hd with hd
      rw [← hd]
    · rw [hstops, length_sortLt, List.length_map]
    · rw [hstops, List.all_eq_true]
      intro s hs
      rw [mem_sortLt] at hs
      rcases List.mem_map.mp hs with ⟨stop, _hstop, rfl⟩
      rw [hpred (pyStr stop.stop_id)]
      have hcore := etaCore_nil stop now
      simp [buildTimelineStop, effectivePredictions, hcore]

theorem C1_witness :
    (async_update_data demoEnv "7" 0 100).isOk = true ∧
    (get_route_timeline_for_card demoEnv "7" 0 100).error = none ∧
    (get_route_timeline_for_card demoEnv "7" 0 100).stops.length = demoPattern.length ∧
    ((get_route_timeline_for_card demoEnv "7" 0 100).stops.all
      (fun s => !s.has_real_time && s.prediction_count == 0 &&
        s.eta_display == etaFallbackDisplay s.scheduled_time)) = true := by
  have h := C1_degraded_refresh demoEnv demoTrips [] [] "7" 0 100 demoPattern rfl rfl rfl
    (fun _ => rfl) rfl (by decide)
  exact ⟨h.1, h.2.2.1, h.2.2.2.1, h.2.2.2.2⟩

/-- C8 counterexample: in `stopsFailEnv` the static stops resource fails,
but it is only fetched inside `get_route_timeline_for_card` (and
`get_route_stop_predictions`), whose catch-all converts the error to an
empty timeline; the refresh succeeds instead of raising `UpdateFailed` —
against the claim that a stops fetch failure always fails the refresh. -/
theorem C8_counterexample :
    (async_update_data stopsFailEnv "7" 0 100).isOk = true ∧
    ((async_update_data stopsFailEnv "7" 0 100).map
      (fun d => (d.route_timeline.stops, d.route_timeline.error))) =
      .ok ([], some "stops down") ∧
    stopsFailEnv.stops = .error "stops down" := by
  exact ⟨by decide, rfl, rfl⟩

/-- C8 (amended): `UpdateFailed` is raised exactly for failures of the
coordinator's direct fetches — trips (sensor.py:63), vehicle positions,
trip updates.  A static failure reaching `get_route_timeline_for_card`
instead yields an empty timeline carrying the error message, and the
refresh succeeds whenever the three direct fetches do. -/
theorem C8_static_failure_propagation (env : FetchEnv) (route_id : String)
    (direction_id : Int) (now : Nat) :
    (∀ e, env.trips = Except.error e →
      async_update_data env route_id direction_id now =
        .error ("Error communicating with API: " ++ e)) ∧
    (∀ trips vp tu, env.trips = Except.ok trips → env.vehicle_positions = Except.ok vp →
      env.trip_updates = Except.ok tu →
      (async_update_data env route_id direction_id now).isOk = true) ∧
    (∀ e, get_route_stop_pattern env.trips env.stop_times env.stops route_id direction_id
        = .error e →
      (get_route_timeline_for_card env route_id direction_id now).stops = [] ∧
      (get_route_timeline_for_card env route_id direction_id now).error = some e) := by
  refine ⟨?_, ?_, ?_⟩
  · intro e h
    unfold async_update_data get_trips_for_route
    rw [h]
    rfl
  · intro trips vp tu htr hvp htu
    unfold async_update_data get_trips_for_route get_vehicle_positions get_trip_updates
    rw [htr, hvp, htu]
    rfl
  · intro e h
    unfold get_route_timeline_for_card
    rw [h]
    exact ⟨rfl, rfl⟩

theorem C8_witness :
    async_update_data tripsFailEnv "7" 0 100 =
      .error ("Error communicating with API: " ++ "gtfs down") ∧
    (async_update_data stopsFailEnv "7" 0 100).isOk = true ∧
    ((get_route_timeline_for_card stopsFailEnv "7" 0 100).stops = [] ∧
      (get_route_timeline_for_card stopsFailEnv "7" 0 100).error = some "stops down") := by
  exact ⟨(C8_static_failure_propagation tripsFailEnv "7" 0 100).1 "gtfs down" rfl,
    (C8_static_failure_propagation stopsFailEnv "7" 0 100).2.1 demoTrips [] [] rfl rfl rfl,
    (C8_static_failure_propagation stopsFailEnv "7" 0 100).2.2 "stops down" rfl⟩

end Metlink
